import Mathlib

/-!
Verification of the resilient rendering pipeline of cargo-expand.

This file gives a shallow embedding of the pipeline implemented in
src/edit.rs (the sanitizer), src/filter.rs (the scope selector),
src/unparse.rs (the resilient renderer built on top of the external
prettyplease rendering primitive), and the relevant fragments of
src/main.rs (the panic-hook fault boundary and the "no such item"
reporting), together with theorems about the claims of the specification.

The node model is the host AST library's tree (syn); the spec treats it
as given.  We embed the fragment of that tree that the pipeline's code
actually manipulates: compilation units (File), items, blocks,
statements, expressions, foreign items, trait items and impl items, each
carrying the attribute lists the code inspects.  Fields the pipeline
never reads (spans, token positions, visibility, generics, ...) are
omitted; every field that any of the embedded functions reads or writes
is present.

The external rendering primitive prettyplease::unparse is modelled as an
abstract `Renderer`: a total text function together with a success
predicate; a failing render corresponds to a panic of the primitive,
which the source intercepts with std::panic::catch_unwind.
-/

set_option autoImplicit false

/-! ## Node model (the fragment of the syn tree used by the pipeline) -/

/-- Shape of an attribute's arguments: a bare path (`#[test]`), a list
(`#[derive(Clone)]`), or a name-value pair (`#[doc = "..."]`). -/
inductive AttrKind where
  | bare
  | list
  | nameValue
deriving DecidableEq

/-- An attribute: its path (a list of path segments) and argument shape.
`syn::Attribute::path().is_ident("doc")` corresponds to `path = ["doc"]`. -/
structure Attribute where
  path : List String
  kind : AttrKind
deriving DecidableEq

mutual

/-- A declaration (syn `Item`).  The variant set follows the `match` arms
of `enter_item`/`name_of_item` in src/filter.rs; `macro_` is the
macro-definition variant (`Item::Macro`, i.e. `macro_rules!`) removed by
the sanitizer, and `verbatim` is the opaque placeholder variant that the
resilient renderer substitutes for unrenderable nodes. -/
inductive Item where
  | externCrate (ident : String) (rename : Option String)
  | use_
  | static_ (ident : String)
  | const_ (attrs : List Attribute) (ident : String) (ty : String) (expr : Expr)
  | fn_ (attrs : List Attribute) (ident : String) (block : Block)
  | mod_ (attrs : List Attribute) (ident : String) (content : Option (List Item))
  | foreignMod (attrs : List Attribute) (items : List ForeignItem)
  | type_ (attrs : List Attribute) (ident : String) (ty : String)
  | existential (ident : String)
  | struct_ (ident : String)
  | enum_ (ident : String)
  | union_ (ident : String)
  | trait_ (attrs : List Attribute) (ident : String) (items : List TraitItem)
  | traitAlias (ident : String)
  | impl_ (attrs : List Attribute) (items : List ImplItem)
  | macro_ (ident : Option String)
  | macro2 (ident : String)
  | verbatim (tts : String)

/-- A brace-delimited block of statements (syn `Block`). -/
inductive Block where
  | mk (stmts : List Stmt)

/-- A statement (syn `Stmt`): local binding, nested item,
expression-statement, or statement-level macro invocation. -/
inductive Stmt where
  | local_ (attrs : List Attribute) (init : Option Expr)
  | item (i : Item)
  | expr (e : Expr) (semi : Bool)
  | macroStmt (attrs : List Attribute)

/-- An expression (syn `Expr`).  Every non-verbatim variant carries an
attribute list, mirroring `attrs_mut` in src/edit.rs; `binary`, `paren`
and `block` stand for the expression forms with sub-expression /
sub-block structure that the folds recurse into. -/
inductive Expr where
  | lit (attrs : List Attribute) (value : String)
  | path (attrs : List Attribute) (segments : List String)
  | binary (attrs : List Attribute) (op : String) (lhs rhs : Expr)
  | paren (attrs : List Attribute) (inner : Expr)
  | block (attrs : List Attribute) (b : Block)
  | macroExpr (attrs : List Attribute)
  | verbatim (tts : String)

/-- A member of an `extern { }` block (syn `ForeignItem`). -/
inductive ForeignItem where
  | fn_ (attrs : List Attribute) (ident : String)
  | verbatim (tts : String)

/-- A member of a trait (syn `TraitItem`): constant, method and
associated type each carry an optional default, exactly the data
`enter_item` in src/filter.rs reads. -/
inductive TraitItem where
  | const_ (attrs : List Attribute) (ident : String) (ty : String) (default : Option Expr)
  | method (attrs : List Attribute) (ident : String) (default : Option Block)
  | type_ (attrs : List Attribute) (ident : String) (default : Option String)
  | macroTI
  | verbatim (tts : String)

/-- A member of an impl block (syn `ImplItem`). -/
inductive ImplItem where
  | const_ (attrs : List Attribute) (ident : String) (ty : String) (expr : Expr)
  | method (attrs : List Attribute) (ident : String) (block : Block)
  | verbatim (tts : String)

end

/-- A compilation unit (syn `File`): optional shebang line, unit-level
attributes, and the ordered list of declarations. -/
structure File where
  shebang : Option String
  attrs : List Attribute
  items : List Item

/-! ## Sanitizer (src/edit.rs) -/

/-- The `Item::Macro(_)` test used by the `retain` calls in src/edit.rs. -/
def isMacroItem : Item → Bool
  | .macro_ _ => true
  | _ => false

/-- The test `attr.path().is_ident("doc")` (src/edit.rs, `remove_doc_attributes`). -/
def isDocAttr (a : Attribute) : Bool :=
  a.path = ["doc"]

/-- Embeds `remove_doc_attributes` (src/edit.rs lines 58-60). -/
def removeDocAttributes (attrs : List Attribute) : List Attribute :=
  attrs.filter (fun a => !isDocAttr a)

/-- Embeds `remove_macro_rules_from_vec_item` (src/edit.rs lines 51-56). -/
def removeMacroRulesFromVecItem (items : List Item) : List Item :=
  items.filter (fun i => !isMacroItem i)

/-- The `Stmt::Item(Item::Macro(_))` test of `visit_block_mut`
(src/edit.rs lines 29-32). -/
def isMacroItemStmt : Stmt → Bool
  | .item (.macro_ _) => true
  | _ => false

mutual

/-- One step of the `Sanitize` visitor on an item (src/edit.rs): a module
with inline content has macro definitions removed from its content list
and is then visited recursively (`visit_item_mod_mut`); all other items
are traversed by the default `visit_item_mut`, which descends into any
contained expressions and blocks. -/
def sanitizeItem : Item → Item
  | .mod_ a n (some items) => .mod_ a n (some (sanitizeItems items))
  | .mod_ a n none => .mod_ a n none
  | .fn_ a n b => .fn_ a n (sanitizeBlock b)
  | .const_ a n ty e => .const_ a n ty (sanitizeExpr e)
  | .trait_ a n tis => .trait_ a n (sanitizeTraitItems tis)
  | .impl_ a iis => .impl_ a (sanitizeImplItems iis)
  | i => i

/-- Applying `remove_macro_rules_from_vec_item` on a declaration list followed by
the per-item visit, fused into one pass (the two-pass retain-then-visit
form is recovered by `sanitizeItems_eq_filter_map`). -/
def sanitizeItems : List Item → List Item
  | [] => []
  | i :: rest =>
    if isMacroItem i then sanitizeItems rest
    else sanitizeItem i :: sanitizeItems rest

/-- Embeds `visit_block_mut` (src/edit.rs lines 28-34): drop
`Stmt::Item(Item::Macro(_))` statements, then visit the remaining
statements. -/
def sanitizeBlock : Block → Block
  | .mk stmts => .mk (sanitizeStmts stmts)

/-- The statement-list pass of `visit_block_mut`, fused retain + visit
(recovered in two-pass form by `sanitizeStmts_eq_filter_map`). -/
def sanitizeStmts : List Stmt → List Stmt
  | [] => []
  | s :: rest =>
    if isMacroItemStmt s then sanitizeStmts rest
    else sanitizeStmt s :: sanitizeStmts rest

/-- Embeds `visit_stmt_mut` (src/edit.rs lines 36-48): strip doc attributes from
a local binding, from the expression of an expression-statement, and
from a statement-level macro invocation, then continue with the default
recursive visit of the statement's payload. -/
def sanitizeStmt : Stmt → Stmt
  | .local_ a init =>
    .local_ (removeDocAttributes a)
      (match init with
       | none => none
       | some e => some (sanitizeExpr e))
  | .expr e semi => .expr (sanitizeStmtExpr e) semi
  | .item i => .item (sanitizeItem i)
  | .macroStmt a => .macroStmt (removeDocAttributes a)

/-- The `Stmt::Expr` arm of `visit_stmt_mut`: `attrs_mut(e)` exposes the
expression's own attribute list, `remove_doc_attributes` filters it, and
the default visit then recurses into the sub-structure. -/
def sanitizeStmtExpr : Expr → Expr
  | .lit a v => .lit (removeDocAttributes a) v
  | .path a segs => .path (removeDocAttributes a) segs
  | .binary a op l r => .binary (removeDocAttributes a) op (sanitizeExpr l) (sanitizeExpr r)
  | .paren a e => .paren (removeDocAttributes a) (sanitizeExpr e)
  | .block a b => .block (removeDocAttributes a) (sanitizeBlock b)
  | .macroExpr a => .macroExpr (removeDocAttributes a)
  | .verbatim t => .verbatim t

/-- Default visit of an expression: no rewriting at this level (doc
attributes are only stripped at statement level), but sub-blocks are
visited, so statements nested inside expressions are sanitized. -/
def sanitizeExpr : Expr → Expr
  | .lit a v => .lit a v
  | .path a segs => .path a segs
  | .binary a op l r => .binary a op (sanitizeExpr l) (sanitizeExpr r)
  | .paren a e => .paren a (sanitizeExpr e)
  | .block a b => .block a (sanitizeBlock b)
  | .macroExpr a => .macroExpr a
  | .verbatim t => .verbatim t

/-- Default visit of a trait-item list. -/
def sanitizeTraitItems : List TraitItem → List TraitItem
  | [] => []
  | ti :: rest => sanitizeTraitItem ti :: sanitizeTraitItems rest

/-- Default visit of a trait item: descends into default bodies. -/
def sanitizeTraitItem : TraitItem → TraitItem
  | .const_ a n ty d =>
    .const_ a n ty
      (match d with
       | none => none
       | some e => some (sanitizeExpr e))
  | .method a n d =>
    .method a n
      (match d with
       | none => none
       | some b => some (sanitizeBlock b))
  | .type_ a n d => .type_ a n d
  | .macroTI => .macroTI
  | .verbatim t => .verbatim t

/-- Default visit of an impl-item list. -/
def sanitizeImplItems : List ImplItem → List ImplItem
  | [] => []
  | ii :: rest => sanitizeImplItem ii :: sanitizeImplItems rest

/-- Default visit of an impl item: descends into member bodies. -/
def sanitizeImplItem : ImplItem → ImplItem
  | .const_ a n ty e => .const_ a n ty (sanitizeExpr e)
  | .method a n b => .method a n (sanitizeBlock b)
  | .verbatim t => .verbatim t

end

/-- Embeds `sanitize` (src/edit.rs lines 11-14): remove macro definitions from
the unit's own declaration list, then run the `Sanitize` visitor over
the whole tree.  The file-level removal and the visitor's per-item visit
are fused in `sanitizeItems`. -/
def sanitize (f : File) : File :=
  { f with items := sanitizeItems f.items }

/-- The fused item pass equals `remove_macro_rules_from_vec_item`
followed by mapping the visitor over the survivors, as in the source. -/
theorem sanitizeItems_eq_filter_map (l : List Item) :
    sanitizeItems l = (removeMacroRulesFromVecItem l).map sanitizeItem := by
  induction l with
  | nil => rfl
  | cons i rest ih =>
    by_cases h : isMacroItem i <;>
      simp [sanitizeItems, removeMacroRulesFromVecItem, List.filter, h, ih]

/-- The fused statement pass equals the `retain` of `visit_block_mut`
followed by visiting each surviving statement. -/
theorem sanitizeStmts_eq_filter_map (l : List Stmt) :
    sanitizeStmts l = (l.filter (fun s => !isMacroItemStmt s)).map sanitizeStmt := by
  induction l with
  | nil => rfl
  | cons s rest ih =>
    by_cases h : isMacroItemStmt s <;>
      simp [sanitizeStmts, List.filter, h, ih]

/-! ## Scope selector (src/filter.rs) -/

/-- A parsed selector: the non-empty `::`-separated path of identifier
segments.  This is `Filter` in src/filter.rs; it is named `ItemFilter`
here because `Filter` is taken by the ambient mathematical library. -/
structure ItemFilter where
  segments : List String
deriving DecidableEq

/-- Rust's `str::split("::")`: greedy left-to-right split on the first
occurrence of the two-character separator; the empty string yields one
empty segment, a trailing separator yields a trailing empty segment. -/
def splitDoubleColon : List Char → List (List Char)
  | [] => [[]]
  | ':' :: ':' :: rest => [] :: splitDoubleColon rest
  | c :: rest =>
    match splitDoubleColon rest with
    | [] => [[c]]
    | s :: ss => (c :: s) :: ss

/-- Character that may start a Rust identifier. -/
def isIdentStart (c : Char) : Bool :=
  c.isAlpha || c = '_'

/-- Character that may continue a Rust identifier. -/
def isIdentContinue (c : Char) : Bool :=
  c.isAlphanum || c = '_'

/-- Rust's strict keywords, which `syn` refuses to parse as an `Ident`. -/
def rustStrictKeywords : List String :=
  ["as", "async", "await", "break", "const", "continue", "crate", "dyn",
   "else", "enum", "extern", "false", "fn", "for", "if", "impl", "in",
   "let", "loop", "match", "mod", "move", "mut", "pub", "ref", "return",
   "self", "Self", "static", "struct", "super", "trait", "true", "type",
   "unsafe", "use", "where", "while"]

/-- Models `syn::parse_str::<Ident>` on one path segment: accepts a non-empty
identifier (not a lone underscore, not a keyword), rejects everything
else.  The empty string in particular is not an identifier. -/
def parseIdentSegment (s : String) : Option String :=
  match s.toList with
  | [] => none
  | c :: rest =>
    if isIdentStart c && rest.all isIdentContinue && s ≠ "_"
        && !rustStrictKeywords.contains s then
      some s
    else
      none

/-- The segment-collection loop of `Filter::from_str` (src/filter.rs
lines 16-23): parse each segment in order, failing on the first segment
that is not an identifier. -/
def collectSegments : List String → Except String (List String)
  | [] => .ok []
  | s :: rest =>
    match parseIdentSegment s with
    | none => .error ("`" ++ s ++ "` is not an identifier")
    | some id =>
      match collectSegments rest with
      | .error e => .error e
      | .ok ids => .ok (id :: ids)

/-- Embeds `Filter::from_str` (src/filter.rs lines 16-28): split the input on
`::`, parse every segment as an identifier, and reject an empty segment
list. -/
def ItemFilter.fromStr (input : String) : Except String ItemFilter :=
  match collectSegments ((splitDoubleColon input.toList).map String.mk) with
  | .error e => .error e
  | .ok segs => if segs.isEmpty then .error "empty path" else .ok ⟨segs⟩

/-- The trait-member synthesis of `enter_item` (src/filter.rs lines
96-135): a trait constant with a default value becomes a standalone
constant declaration, a trait method with a default body becomes a
standalone function declaration carrying that body, a trait associated
type with a default becomes a standalone type alias; a member without a
default, a trait-level macro invocation, and verbatim members yield
nothing. -/
def traitItemToItem : TraitItem → Option Item
  | .const_ a n ty d =>
    match d with
    | some e => some (.const_ a n ty e)
    | none => none
  | .method a n d =>
    match d with
    | some b => some (.fn_ a n b)
    | none => none
  | .type_ a n d =>
    match d with
    | some t => some (.type_ a n t)
    | none => none
  | .macroTI => none
  | .verbatim _ => none

/-- Embeds `enter_item` (src/filter.rs lines 79-142): expand a declaration into
the list of declarations one may descend into.  Only a module with
inline content (its content list) and a trait (its defaulted members,
synthesized into standalone declarations) contribute; every other kind
of declaration is opaque and contributes nothing. -/
def enterItem : Item → List Item
  | .externCrate _ _ => []
  | .use_ => []
  | .static_ _ => []
  | .const_ _ _ _ _ => []
  | .fn_ _ _ _ => []
  | .mod_ _ _ (some nested) => nested
  | .mod_ _ _ none => []
  | .foreignMod _ _ => []
  | .type_ _ _ _ => []
  | .existential _ => []
  | .struct_ _ => []
  | .enum_ _ => []
  | .union_ _ => []
  | .trait_ _ _ tis => tis.filterMap traitItemToItem
  | .traitAlias _ => []
  | .impl_ _ _ => []
  | .macro_ _ => []
  | .macro2 _ => []
  | .verbatim _ => []

/-- Embeds `name_of_item` (src/filter.rs lines 144-168): the name a declaration
is matched by; a renamed `extern crate` matches on its rename. -/
def nameOfItem : Item → Option String
  | .externCrate ident rename =>
    match rename with
    | some r => some r
    | none => some ident
  | .use_ => none
  | .static_ n => some n
  | .const_ _ n _ _ => some n
  | .fn_ _ n _ => some n
  | .mod_ _ n _ => some n
  | .foreignMod _ _ => none
  | .type_ _ n _ => some n
  | .existential n => some n
  | .struct_ n => some n
  | .enum_ n => some n
  | .union_ n => some n
  | .trait_ _ n _ => some n
  | .traitAlias n => some n
  | .impl_ _ _ => none
  | .macro_ id => id
  | .macro2 n => some n
  | .verbatim _ => none

/-- One iteration of the segment loop of `filter` (src/filter.rs lines
58-64): expand every currently-selected declaration with `enter_item`,
then keep those whose name equals the segment. -/
def filterStep (items : List Item) (segment : String) : List Item :=
  (items.flatMap enterItem).filter (fun i => nameOfItem i == some segment)

/-- The full segment loop of `filter`. -/
def filterSegments (items : List Item) : List String → List Item
  | [] => items
  | seg :: rest => filterSegments (filterStep items seg) rest

/-- The synthetic root module `filter` wraps the unit's declarations in
before the loop (src/filter.rs lines 47-56). -/
def rootItems (f : File) : List Item :=
  [Item.mod_ [] "root" (some f.items)]

/-- Embeds `filter` (src/filter.rs lines 43-77): clear the shebang and the
unit-level attributes, run the segment loop starting from the synthetic
root module, and, if exactly one declaration remains and it is a module
with inline content, unwrap it to its member list; otherwise keep the
remaining list as is. -/
def filterFile (f : File) (flt : ItemFilter) : File :=
  let items := filterSegments (rootItems f) flt.segments
  let items :=
    match items with
    | [Item.mod_ _ _ (some nested)] => nested
    | other => other
  { shebang := none, attrs := [], items := items }

/-! ## Resilient renderer (src/unparse.rs)

The external rendering primitive `prettyplease::unparse` is deterministic
and pure but may panic on trees outside its supported subset.  It is
modelled abstractly as a `Renderer`: `canRender` is the success predicate
of one rendering attempt carried out under the `panic::catch_unwind`
fault boundary, and `render` is the text produced when the attempt
succeeds. -/

/-- Abstract model of the external rendering primitive. -/
structure Renderer where
  canRender : File → Bool
  render : File → String

/-- A throwaway one-node unit: `File { shebang: None, attrs: Vec::new(),
items: vec![...] }` as built by each fold method in src/unparse.rs. -/
def mkTestFile (items : List Item) : File :=
  { shebang := none, attrs := [], items := items }

/-- Minimal wrapper for an item: the item is already unit-level
(src/unparse.rs lines 24-35). -/
def wrapItem (i : Item) : File :=
  mkTestFile [i]

/-- Minimal wrapper for a statement: `fn main() { <stmt> }`
(src/unparse.rs lines 46-72). -/
def wrapStmt (s : Stmt) : File :=
  mkTestFile [.fn_ [] "main" (.mk [s])]

/-- Minimal wrapper for an expression: `const _: _ = <expr>;`
(src/unparse.rs lines 98-117). -/
def wrapExpr (e : Expr) : File :=
  mkTestFile [.const_ [] "_" "_" e]

/-- Minimal wrapper for a foreign item: `extern { <foreign_item> }`
(src/unparse.rs lines 144-159). -/
def wrapForeignItem (fi : ForeignItem) : File :=
  mkTestFile [.foreignMod [] [fi]]

/-- Minimal wrapper for a trait item: `trait Trait { <trait_item> }`
(src/unparse.rs lines 187-206). -/
def wrapTraitItem (ti : TraitItem) : File :=
  mkTestFile [.trait_ [] "Trait" [ti]]

/-- Minimal wrapper for an impl item: `impl _ { <impl_item> }`
(src/unparse.rs lines 234-252). -/
def wrapImplItem (ii : ImplItem) : File :=
  mkTestFile [.impl_ [] [ii]]

/-- The placeholder an unrenderable item is replaced with:
`Item::Verbatim(quote!(...))`, which renders as the fixed ellipsis
token `...`. -/
def ellipsisItem : Item :=
  .verbatim "..."

/-- The placeholder `Stmt::Item(Item::Verbatim(quote!(...)))` (src/unparse.rs line 95). -/
def ellipsisStmt : Stmt :=
  .item ellipsisItem

/-- The placeholder `Expr::Verbatim(quote!(...))` (src/unparse.rs line 141). -/
def ellipsisExpr : Expr :=
  .verbatim "..."

/-- The placeholder `ForeignItem::Verbatim(quote!(...))` (src/unparse.rs line 184). -/
def ellipsisForeignItem : ForeignItem :=
  .verbatim "..."

/-- The placeholder `TraitItem::Verbatim(quote!(...))` (src/unparse.rs line 231). -/
def ellipsisTraitItem : TraitItem :=
  .verbatim "..."

/-- The placeholder `ImplItem::Verbatim(quote!(...))` (src/unparse.rs line 275). -/
def ellipsisImplItem : ImplItem :=
  .verbatim "..."

mutual

/-- Embeds `UnparseMaximal::fold_item` (src/unparse.rs lines 24-44): try the
item in its minimal wrapper; on success return it unchanged; otherwise
fold its immediate children with the same fold (`fold::fold_item`),
retry the wrapper once, and on a second failure substitute the ellipsis
placeholder.  The inline `match` computing `folded` is the default
`fold::fold_item` dispatch, also available standalone as
`foldItemChildren`. -/
def foldItem (R : Renderer) (i : Item) : Item :=
  if R.canRender (wrapItem i) then i
  else
    let folded : Item :=
      match i with
      | .const_ a n ty e => .const_ a n ty (foldExpr R e)
      | .fn_ a n b => .fn_ a n (foldBlock R b)
      | .mod_ a n (some items) => .mod_ a n (some (foldItems R items))
      | .foreignMod a fis => .foreignMod a (foldForeignItems R fis)
      | .trait_ a n tis => .trait_ a n (foldTraitItems R tis)
      | .impl_ a iis => .impl_ a (foldImplItems R iis)
      | other => other
    if R.canRender (wrapItem folded) then folded else ellipsisItem

/-- The default fold of an item list (`fold::fold_file` /
`fold::fold_item_mod` content): each item goes through the overridden
`fold_item`. -/
def foldItems (R : Renderer) : List Item → List Item
  | [] => []
  | i :: rest => foldItem R i :: foldItems R rest

/-- The default fold of a block: each statement goes through the
overridden `fold_stmt`. -/
def foldBlock (R : Renderer) : Block → Block
  | .mk stmts => .mk (foldStmts R stmts)

/-- The default fold of a statement list. -/
def foldStmts (R : Renderer) : List Stmt → List Stmt
  | [] => []
  | s :: rest => foldStmt R s :: foldStmts R rest

/-- Embeds `UnparseMaximal::fold_stmt` (src/unparse.rs lines 46-96): test the
statement inside the synthetic `fn main() { <stmt> }` wrapper, with the
same try / fold-children / retry-once / placeholder scheme. -/
def foldStmt (R : Renderer) (s : Stmt) : Stmt :=
  if R.canRender (wrapStmt s) then s
  else
    let folded : Stmt :=
      match s with
      | .local_ a init =>
        .local_ a
          (match init with
           | none => none
           | some e => some (foldExpr R e))
      | .item i => .item (foldItem R i)
      | .expr e semi => .expr (foldExpr R e) semi
      | .macroStmt a => .macroStmt a
    if R.canRender (wrapStmt folded) then folded else ellipsisStmt

/-- Embeds `UnparseMaximal::fold_expr` (src/unparse.rs lines 98-142): test the
expression inside the synthetic `const _: _ = <expr>;` wrapper, with the
same try / fold-children / retry-once / placeholder scheme. -/
def foldExpr (R : Renderer) (e : Expr) : Expr :=
  if R.canRender (wrapExpr e) then e
  else
    let folded : Expr :=
      match e with
      | .binary a op l r => .binary a op (foldExpr R l) (foldExpr R r)
      | .paren a x => .paren a (foldExpr R x)
      | .block a b => .block a (foldBlock R b)
      | other => other
    if R.canRender (wrapExpr folded) then folded else ellipsisExpr

/-- The default fold of a foreign-item list. -/
def foldForeignItems (R : Renderer) : List ForeignItem → List ForeignItem
  | [] => []
  | fi :: rest => foldForeignItem R fi :: foldForeignItems R rest

/-- Embeds `UnparseMaximal::fold_foreign_item` (src/unparse.rs lines 144-185):
test inside the synthetic `extern { }` wrapper; the foreign items
embedded here carry no foldable substructure, so the fold of the
children leaves the node unchanged before the single retry. -/
def foldForeignItem (R : Renderer) (fi : ForeignItem) : ForeignItem :=
  if R.canRender (wrapForeignItem fi) then fi
  else
    let folded : ForeignItem := fi
    if R.canRender (wrapForeignItem folded) then folded else ellipsisForeignItem

/-- The default fold of a trait-item list. -/
def foldTraitItems (R : Renderer) : List TraitItem → List TraitItem
  | [] => []
  | ti :: rest => foldTraitItem R ti :: foldTraitItems R rest

/-- Embeds `UnparseMaximal::fold_trait_item` (src/unparse.rs lines 187-232):
test inside the synthetic `trait Trait { }` wrapper, with the same
try / fold-children / retry-once / placeholder scheme. -/
def foldTraitItem (R : Renderer) (ti : TraitItem) : TraitItem :=
  if R.canRender (wrapTraitItem ti) then ti
  else
    let folded : TraitItem :=
      match ti with
      | .const_ a n ty d =>
        .const_ a n ty
          (match d with
           | none => none
           | some e => some (foldExpr R e))
      | .method a n d =>
        .method a n
          (match d with
           | none => none
           | some b => some (foldBlock R b))
      | other => other
    if R.canRender (wrapTraitItem folded) then folded else ellipsisTraitItem

/-- The default fold of an impl-item list. -/
def foldImplItems (R : Renderer) : List ImplItem → List ImplItem
  | [] => []
  | ii :: rest => foldImplItem R ii :: foldImplItems R rest

/-- Embeds `UnparseMaximal::fold_impl_item` (src/unparse.rs lines 234-276):
test inside the synthetic `impl _ { }` wrapper, with the same
try / fold-children / retry-once / placeholder scheme. -/
def foldImplItem (R : Renderer) (ii : ImplItem) : ImplItem :=
  if R.canRender (wrapImplItem ii) then ii
  else
    let folded : ImplItem :=
      match ii with
      | .const_ a n ty e => .const_ a n ty (foldExpr R e)
      | .method a n b => .method a n (foldBlock R b)
      | other => other
    if R.canRender (wrapImplItem folded) then folded else ellipsisImplItem

end

/-- The default `fold::fold_item` dispatch of the children of one item
(standalone form of the inline `match` in `foldItem`, see
`foldItem_eq`). -/
def foldItemChildren (R : Renderer) : Item → Item
  | .const_ a n ty e => .const_ a n ty (foldExpr R e)
  | .fn_ a n b => .fn_ a n (foldBlock R b)
  | .mod_ a n (some items) => .mod_ a n (some (foldItems R items))
  | .foreignMod a fis => .foreignMod a (foldForeignItems R fis)
  | .trait_ a n tis => .trait_ a n (foldTraitItems R tis)
  | .impl_ a iis => .impl_ a (foldImplItems R iis)
  | other => other

/-- The default `fold::fold_stmt` dispatch of the children of one
statement (standalone form of the inline `match` in `foldStmt`). -/
def foldStmtChildren (R : Renderer) : Stmt → Stmt
  | .local_ a init =>
    .local_ a
      (match init with
       | none => none
       | some e => some (foldExpr R e))
  | .item i => .item (foldItem R i)
  | .expr e semi => .expr (foldExpr R e) semi
  | .macroStmt a => .macroStmt a

/-- The default `fold::fold_expr` dispatch of the children of one
expression (standalone form of the inline `match` in `foldExpr`). -/
def foldExprChildren (R : Renderer) : Expr → Expr
  | .binary a op l r => .binary a op (foldExpr R l) (foldExpr R r)
  | .paren a x => .paren a (foldExpr R x)
  | .block a b => .block a (foldBlock R b)
  | other => other

/-- Embeds `UnparseMaximal.fold_file` (src/unparse.rs line 17): the default
`fold::fold_file` keeps the shebang and the unit-level attributes and
sends every item through the overridden `fold_item`. -/
def foldFile (R : Renderer) (f : File) : File :=
  { f with items := foldItems R f.items }

/-- Models `Clone::clone` on a syntax tree: a deep copy, equal as a value
(src/unparse.rs line 17 folds `syntax_tree.clone()`, not the borrowed
input). -/
def cloneFile (f : File) : File :=
  f

/-- Embeds `unparse_maximal` (src/unparse.rs lines 12-19): try the whole unit
once under the fault boundary; on success return that text unchanged;
on failure fold a clone of the tree and render the redacted clone.  The
final render at line 18 runs outside any `catch_unwind`, so a failure
there would escape `unparse_maximal` as a panic — modelled by `none`. -/
def unparseMaximal (R : Renderer) (syntaxTree : File) : Option String :=
  if R.canRender syntaxTree then some (R.render syntaxTree)
  else
    let redacted := foldFile R (cloneFile syntaxTree)
    if R.canRender redacted then some (R.render redacted) else none

/-- Wraps `unparse_maximal` with the caller's borrowed tree made explicit: the
function receives the tree by shared reference and folds only the
clone, so the second component is the caller's tree after the call. -/
def unparseMaximalTracked (R : Renderer) (syntaxTree : File) : Option String × File :=
  (unparseMaximal R syntaxTree, syntaxTree)

/-! ## Fault boundary (src/main.rs, `ignore_panic`, lines 646-667)

The process-wide panic-hook slot is the one shared mutable resource the
renderer touches.  Hook values are identified by the identity of the
installed handler object (the source compares raw pointers); we model
identities as natural numbers and the slot as the currently installed
identity.  The guarded computation is modelled as a function from the
installed hook at entry to the installed hook at exit together with the
outcome of `panic::catch_unwind` — this lets another part of the process
"alter the handler during the attempt", which is exactly what the
sanity check must detect. -/

/-- Outcome of `panic::catch_unwind(f)`: the closure's value, or a caught
panic (`ThreadResult` = `Ok`/`Err`). -/
inductive ThreadOutcome (T : Type) where
  | value (t : T)
  | panicked

/-- Result of `ignore_panic`: the thread outcome, or the fatal
`panic!("race condition on std::panic hook")` raised when the hook
taken back at restore time is not the one installed. -/
inductive IgnorePanicResult (T : Type) where
  | result (r : ThreadOutcome T)
  | fatalHookRace

/-- Embeds `ignore_panic` (src/main.rs lines 646-667), with the hook slot passed
as explicit state.  In source order: take the original hook, install the
null (ignoring) hook, run the attempt under `catch_unwind`, take back
whatever hook is now installed, reinstall the original hook, and only
then compare the taken-back hook against the installed null hook by
identity; a mismatch is the fatal condition.  The returned state is the
hook slot after the call. -/
def ignorePanic {T : Type} (f : Nat → Nat × ThreadOutcome T) (nullHook : Nat)
    (installedHook : Nat) : IgnorePanicResult T × Nat :=
  let originalHook := installedHook
  let afterInstall := nullHook
  let run := f afterInstall
  let hopefullyNullHook := run.1
  let afterRestore := originalHook
  if hopefullyNullHook = nullHook then (.result run.2, afterRestore)
  else (.fatalHookRace, afterRestore)

/-! ## "no such item" reporting (src/main.rs lines 230-237) -/

/-- The `args.item` stage of `do_cargo_expand`: with no selector the tree
passes through; with a selector the tree is filtered, and if the
filtered unit has no declarations left the run stops with the
user-facing "no such item" report (exit code 1) instead of proceeding to
rendering — modelled by `Except.error`. -/
def applyItemFilter (syntaxTree : File) (argsItem : Option ItemFilter) :
    Except ItemFilter File :=
  match argsItem with
  | none => .ok syntaxTree
  | some flt =>
    let filtered := filterFile syntaxTree flt
    if filtered.items.isEmpty then .error flt else .ok filtered

/-! ## Extended sanitizer mode `skip_auto_derived`

Modelled from the spec: the extended sanitizer mode `skip_auto_derived`
is not present under src/; §4.1 of the spec describes it as removing,
at any nesting depth, every implementation-block declaration that
carries a marker attribute that is a bare, unqualified path literally
equal to a fixed marker name, with no arguments.  The marker name is
kept abstract as a parameter.  The walk mirrors the sanitizer's walk,
which visits every nesting level. -/

/-- Modelled from the spec: an attribute detecting a mechanically derived
implementation block — a bare, unqualified path literally equal to the
fixed marker name, with no arguments. -/
def isAutoDerivedMarker (marker : String) (a : Attribute) : Bool :=
  a.path = [marker] && a.kind = AttrKind.bare

/-- Modelled from the spec: an implementation-block declaration carrying
the auto-derived marker attribute. -/
def isMarkedImpl (marker : String) : Item → Bool
  | .impl_ attrs _ => attrs.any (isAutoDerivedMarker marker)
  | _ => false

mutual

/-- Modelled from the spec: remove marked implementation blocks from a
declaration list and recurse into the survivors. -/
def skipAutoDerivedItems (marker : String) : List Item → List Item
  | [] => []
  | i :: rest =>
    if isMarkedImpl marker i then skipAutoDerivedItems marker rest
    else skipAutoDerivedItem marker i :: skipAutoDerivedItems marker rest

/-- Modelled from the spec: recurse into every nesting level of one
declaration, leaving the declaration itself untouched. -/
def skipAutoDerivedItem (marker : String) : Item → Item
  | .mod_ a n (some items) => .mod_ a n (some (skipAutoDerivedItems marker items))
  | .mod_ a n none => .mod_ a n none
  | .fn_ a n b => .fn_ a n (skipAutoDerivedBlock marker b)
  | .const_ a n ty e => .const_ a n ty (skipAutoDerivedExpr marker e)
  | .trait_ a n tis => .trait_ a n (skipAutoDerivedTraitItems marker tis)
  | .impl_ a iis => .impl_ a (skipAutoDerivedImplItems marker iis)
  | i => i

/-- Modelled from the spec: remove marked implementation blocks nested
as statements and recurse. -/
def skipAutoDerivedBlock (marker : String) : Block → Block
  | .mk stmts => .mk (skipAutoDerivedStmts marker stmts)

/-- Modelled from the spec: the statement-list walk. -/
def skipAutoDerivedStmts (marker : String) : List Stmt → List Stmt
  | [] => []
  | s :: rest =>
    if isMarkedImplStmt marker s then skipAutoDerivedStmts marker rest
    else skipAutoDerivedStmt marker s :: skipAutoDerivedStmts marker rest

/-- Modelled from the spec: a statement that is a marked implementation
block. -/
def isMarkedImplStmt (marker : String) : Stmt → Bool
  | .item i => isMarkedImpl marker i
  | _ => false

/-- Modelled from the spec: the per-statement walk. -/
def skipAutoDerivedStmt (marker : String) : Stmt → Stmt
  | .local_ a init =>
    .local_ a
      (match init with
       | none => none
       | some e => some (skipAutoDerivedExpr marker e))
  | .item i => .item (skipAutoDerivedItem marker i)
  | .expr e semi => .expr (skipAutoDerivedExpr marker e) semi
  | .macroStmt a => .macroStmt a

/-- Modelled from the spec: the per-expression walk (descends into
nested blocks). -/
def skipAutoDerivedExpr (marker : String) : Expr → Expr
  | .lit a v => .lit a v
  | .path a segs => .path a segs
  | .binary a op l r =>
    .binary a op (skipAutoDerivedExpr marker l) (skipAutoDerivedExpr marker r)
  | .paren a e => .paren a (skipAutoDerivedExpr marker e)
  | .block a b => .block a (skipAutoDerivedBlock marker b)
  | .macroExpr a => .macroExpr a
  | .verbatim t => .verbatim t

/-- Modelled from the spec: the trait-member walk (descends into default
bodies). -/
def skipAutoDerivedTraitItems (marker : String) : List TraitItem → List TraitItem
  | [] => []
  | ti :: rest =>
    skipAutoDerivedTraitItem marker ti :: skipAutoDerivedTraitItems marker rest

/-- Modelled from the spec: the per-trait-member walk. -/
def skipAutoDerivedTraitItem (marker : String) : TraitItem → TraitItem
  | .const_ a n ty d =>
    .const_ a n ty
      (match d with
       | none => none
       | some e => some (skipAutoDerivedExpr marker e))
  | .method a n d =>
    .method a n
      (match d with
       | none => none
       | some b => some (skipAutoDerivedBlock marker b))
  | .type_ a n d => .type_ a n d
  | .macroTI => .macroTI
  | .verbatim t => .verbatim t

/-- Modelled from the spec: the impl-member walk (descends into member
bodies of surviving implementation blocks). -/
def skipAutoDerivedImplItems (marker : String) : List ImplItem → List ImplItem
  | [] => []
  | ii :: rest =>
    skipAutoDerivedImplItem marker ii :: skipAutoDerivedImplItems marker rest

/-- Modelled from the spec: the per-impl-member walk. -/
def skipAutoDerivedImplItem (marker : String) : ImplItem → ImplItem
  | .const_ a n ty e => .const_ a n ty (skipAutoDerivedExpr marker e)
  | .method a n b => .method a n (skipAutoDerivedBlock marker b)
  | .verbatim t => .verbatim t

end

/-- Modelled from the spec: `skip_auto_derived(unit)`. -/
def skipAutoDerived (marker : String) (f : File) : File :=
  { f with items := skipAutoDerivedItems marker f.items }

/-! ## Invariant checkers

Decidable checkers for the after-sanitize invariant of the spec (§3):
no declaration list at any nesting depth contains a macro-definition
declaration, and no statement-level expression or local-binding
statement carries a documentation attribute. -/

/-- The attribute list carried by an expression (`attrs_mut` in
src/edit.rs; the verbatim variant carries none). -/
def exprAttrs : Expr → List Attribute
  | .lit a _ => a
  | .path a _ => a
  | .binary a _ _ _ => a
  | .paren a _ => a
  | .block a _ => a
  | .macroExpr a => a
  | .verbatim _ => []

/-- No documentation attribute in the list. -/
def noDocAttrs (attrs : List Attribute) : Bool :=
  attrs.all (fun a => !isDocAttr a)

mutual

/-- Checker: a declaration list free of macro definitions, recursively. -/
def noMacroDocItems : List Item → Bool
  | [] => true
  | i :: rest => !isMacroItem i && noMacroDocItem i && noMacroDocItems rest

/-- Checker: every declaration list and block nested inside this
declaration satisfies the after-sanitize invariant. -/
def noMacroDocItem : Item → Bool
  | .mod_ _ _ (some items) => noMacroDocItems items
  | .fn_ _ _ b => noMacroDocBlock b
  | .const_ _ _ _ e => noMacroDocExpr e
  | .trait_ _ _ tis => noMacroDocTraitItems tis
  | .impl_ _ iis => noMacroDocImplItems iis
  | _ => true

/-- Checker: a block of statements free of macro-definition statements,
with doc-free statement-level attribute positions, recursively. -/
def noMacroDocBlock : Block → Bool
  | .mk stmts => noMacroDocStmts stmts

/-- Checker for a statement list. -/
def noMacroDocStmts : List Stmt → Bool
  | [] => true
  | s :: rest => !isMacroItemStmt s && noMacroDocStmt s && noMacroDocStmts rest

/-- Checker: a local-binding statement carries no doc attribute, a
statement-level expression carries no doc attribute, and nested
structure satisfies the invariant. -/
def noMacroDocStmt : Stmt → Bool
  | .local_ a init =>
    noDocAttrs a &&
      (match init with
       | none => true
       | some e => noMacroDocExpr e)
  | .expr e _ => noDocAttrs (exprAttrs e) && noMacroDocExpr e
  | .item i => noMacroDocItem i
  | .macroStmt _ => true

/-- Checker for the structure nested inside an expression (attribute
lists of non-statement-level expressions are unconstrained). -/
def noMacroDocExpr : Expr → Bool
  | .lit _ _ => true
  | .path _ _ => true
  | .binary _ _ l r => noMacroDocExpr l && noMacroDocExpr r
  | .paren _ e => noMacroDocExpr e
  | .block _ b => noMacroDocBlock b
  | .macroExpr _ => true
  | .verbatim _ => true

/-- Checker for a trait-member list. -/
def noMacroDocTraitItems : List TraitItem → Bool
  | [] => true
  | ti :: rest => noMacroDocTraitItem ti && noMacroDocTraitItems rest

/-- Checker for one trait member. -/
def noMacroDocTraitItem : TraitItem → Bool
  | .const_ _ _ _ d =>
    (match d with
     | none => true
     | some e => noMacroDocExpr e)
  | .method _ _ d =>
    (match d with
     | none => true
     | some b => noMacroDocBlock b)
  | .type_ _ _ _ => true
  | .macroTI => true
  | .verbatim _ => true

/-- Checker for an impl-member list. -/
def noMacroDocImplItems : List ImplItem → Bool
  | [] => true
  | ii :: rest => noMacroDocImplItem ii && noMacroDocImplItems rest

/-- Checker for one impl member. -/
def noMacroDocImplItem : ImplItem → Bool
  | .const_ _ _ _ e => noMacroDocExpr e
  | .method _ _ b => noMacroDocBlock b
  | .verbatim _ => true

end

/-- The after-sanitize invariant on a whole compilation unit. -/
def noMacroDocFile (f : File) : Bool :=
  noMacroDocItems f.items

/-! ## Lemmas about the sanitizer -/

/-- Filtering out doc attributes leaves a doc-free list. -/
theorem noDocAttrs_removeDocAttributes (attrs : List Attribute) :
    noDocAttrs (removeDocAttributes attrs) = true := by
  simp only [noDocAttrs, removeDocAttributes, List.all_eq_true]
  intro a ha
  exact (List.mem_filter.mp ha).2

/-- Removing doc attributes twice is the same as removing them once. -/
theorem removeDocAttributes_idem (attrs : List Attribute) :
    removeDocAttributes (removeDocAttributes attrs) = removeDocAttributes attrs := by
  simp [removeDocAttributes, List.filter_filter]

/-- The visitor never changes whether an item is a macro definition. -/
theorem isMacroItem_sanitizeItem (i : Item) :
    isMacroItem (sanitizeItem i) = isMacroItem i := by
  cases i with
  | mod_ a n content => cases content <;> rfl
  | _ => rfl

/-- Evaluating `isMacroItemStmt` on an item statement is `isMacroItem` of the item. -/
theorem isMacroItemStmt_item (i : Item) :
    isMacroItemStmt (.item i) = isMacroItem i := by
  cases i <;> rfl

/-- The visitor never changes whether a statement is a macro-definition
statement. -/
theorem isMacroItemStmt_sanitizeStmt (s : Stmt) :
    isMacroItemStmt (sanitizeStmt s) = isMacroItemStmt s := by
  cases s with
  | item i =>
    simp [sanitizeStmt, isMacroItemStmt_item, isMacroItem_sanitizeItem]
  | _ => rfl

/-- The statement-level pass strips exactly the doc attributes from the
expression's own attribute list. -/
theorem exprAttrs_sanitizeStmtExpr (e : Expr) :
    exprAttrs (sanitizeStmtExpr e) = removeDocAttributes (exprAttrs e) := by
  cases e <;> rfl

mutual

/-- After the visitor, a declaration satisfies the invariant. -/
theorem noMacroDoc_sanitizeItem : ∀ i : Item, noMacroDocItem (sanitizeItem i) = true
  | .mod_ a n (some items) => by
    simp [sanitizeItem, noMacroDocItem, noMacroDoc_sanitizeItems items]
  | .mod_ _ _ none => rfl
  | .fn_ a n b => by
    simp [sanitizeItem, noMacroDocItem, noMacroDoc_sanitizeBlock b]
  | .const_ a n ty e => by
    simp [sanitizeItem, noMacroDocItem, noMacroDoc_sanitizeExpr e]
  | .trait_ a n tis => by
    simp [sanitizeItem, noMacroDocItem, noMacroDoc_sanitizeTraitItems tis]
  | .impl_ a iis => by
    simp [sanitizeItem, noMacroDocItem, noMacroDoc_sanitizeImplItems iis]
  | .externCrate _ _ => rfl
  | .use_ => rfl
  | .static_ _ => rfl
  | .foreignMod _ _ => rfl
  | .type_ _ _ _ => rfl
  | .existential _ => rfl
  | .struct_ _ => rfl
  | .enum_ _ => rfl
  | .union_ _ => rfl
  | .traitAlias _ => rfl
  | .macro_ _ => rfl
  | .macro2 _ => rfl
  | .verbatim _ => rfl

/-- After the fused retain-and-visit pass, a declaration list satisfies
the invariant: no macro definition survives at this level and every
survivor satisfies the invariant recursively. -/
theorem noMacroDoc_sanitizeItems : ∀ l : List Item, noMacroDocItems (sanitizeItems l) = true
  | [] => rfl
  | i :: rest => by
    by_cases h : isMacroItem i
    · simp [sanitizeItems, h, noMacroDoc_sanitizeItems rest]
    · simp [sanitizeItems, h, noMacroDocItems, isMacroItem_sanitizeItem,
        noMacroDoc_sanitizeItem i, noMacroDoc_sanitizeItems rest]

/-- After the visitor, a block satisfies the invariant. -/
theorem noMacroDoc_sanitizeBlock : ∀ b : Block, noMacroDocBlock (sanitizeBlock b) = true
  | .mk stmts => by
    simp [sanitizeBlock, noMacroDocBlock, noMacroDoc_sanitizeStmts stmts]

/-- After the fused retain-and-visit pass, a statement list satisfies
the invariant. -/
theorem noMacroDoc_sanitizeStmts : ∀ l : List Stmt, noMacroDocStmts (sanitizeStmts l) = true
  | [] => rfl
  | s :: rest => by
    by_cases h : isMacroItemStmt s
    · simp [sanitizeStmts, h, noMacroDoc_sanitizeStmts rest]
    · simp [sanitizeStmts, h, noMacroDocStmts, isMacroItemStmt_sanitizeStmt,
        noMacroDoc_sanitizeStmt s, noMacroDoc_sanitizeStmts rest]

/-- After the visitor, a statement satisfies the invariant: its
statement-level attribute positions are doc-free and its nested
structure is clean. -/
theorem noMacroDoc_sanitizeStmt : ∀ s : Stmt, noMacroDocStmt (sanitizeStmt s) = true
  | .local_ a init => by
    cases init with
    | none =>
      simp [sanitizeStmt, noMacroDocStmt, noDocAttrs_removeDocAttributes a]
    | some e =>
      simp [sanitizeStmt, noMacroDocStmt, noDocAttrs_removeDocAttributes a,
        noMacroDoc_sanitizeExpr e]
  | .expr e semi => by
    simp [sanitizeStmt, noMacroDocStmt, exprAttrs_sanitizeStmtExpr,
      noDocAttrs_removeDocAttributes, noMacroDoc_sanitizeStmtExpr e]
  | .item i => by
    simp [sanitizeStmt, noMacroDocStmt, noMacroDoc_sanitizeItem i]
  | .macroStmt a => rfl

/-- After the statement-level pass, the nested structure of the
expression is clean. -/
theorem noMacroDoc_sanitizeStmtExpr : ∀ e : Expr, noMacroDocExpr (sanitizeStmtExpr e) = true
  | .lit _ _ => rfl
  | .path _ _ => rfl
  | .binary a op l r => by
    simp [sanitizeStmtExpr, noMacroDocExpr, noMacroDoc_sanitizeExpr l,
      noMacroDoc_sanitizeExpr r]
  | .paren a e => by
    simp [sanitizeStmtExpr, noMacroDocExpr, noMacroDoc_sanitizeExpr e]
  | .block a b => by
    simp [sanitizeStmtExpr, noMacroDocExpr, noMacroDoc_sanitizeBlock b]
  | .macroExpr _ => rfl
  | .verbatim _ => rfl

/-- After the visitor, an expression's nested structure is clean. -/
theorem noMacroDoc_sanitizeExpr : ∀ e : Expr, noMacroDocExpr (sanitizeExpr e) = true
  | .lit _ _ => rfl
  | .path _ _ => rfl
  | .binary a op l r => by
    simp [sanitizeExpr, noMacroDocExpr, noMacroDoc_sanitizeExpr l,
      noMacroDoc_sanitizeExpr r]
  | .paren a e => by
    simp [sanitizeExpr, noMacroDocExpr, noMacroDoc_sanitizeExpr e]
  | .block a b => by
    simp [sanitizeExpr, noMacroDocExpr, noMacroDoc_sanitizeBlock b]
  | .macroExpr _ => rfl
  | .verbatim _ => rfl

/-- After the visitor, a trait-member list is clean. -/
theorem noMacroDoc_sanitizeTraitItems :
    ∀ l : List TraitItem, noMacroDocTraitItems (sanitizeTraitItems l) = true
  | [] => rfl
  | ti :: rest => by
    simp [sanitizeTraitItems, noMacroDocTraitItems, noMacroDoc_sanitizeTraitItem ti,
      noMacroDoc_sanitizeTraitItems rest]

/-- After the visitor, a trait member is clean. -/
theorem noMacroDoc_sanitizeTraitItem :
    ∀ ti : TraitItem, noMacroDocTraitItem (sanitizeTraitItem ti) = true
  | .const_ a n ty d => by
    cases d with
    | none => rfl
    | some e => simp [sanitizeTraitItem, noMacroDocTraitItem, noMacroDoc_sanitizeExpr e]
  | .method a n d => by
    cases d with
    | none => rfl
    | some b => simp [sanitizeTraitItem, noMacroDocTraitItem, noMacroDoc_sanitizeBlock b]
  | .type_ _ _ _ => rfl
  | .macroTI => rfl
  | .verbatim _ => rfl

/-- After the visitor, an impl-member list is clean. -/
theorem noMacroDoc_sanitizeImplItems :
    ∀ l : List ImplItem, noMacroDocImplItems (sanitizeImplItems l) = true
  | [] => rfl
  | ii :: rest => by
    simp [sanitizeImplItems, noMacroDocImplItems, noMacroDoc_sanitizeImplItem ii,
      noMacroDoc_sanitizeImplItems rest]

/-- After the visitor, an impl member is clean. -/
theorem noMacroDoc_sanitizeImplItem :
    ∀ ii : ImplItem, noMacroDocImplItem (sanitizeImplItem ii) = true
  | .const_ a n ty e => by
    simp [sanitizeImplItem, noMacroDocImplItem, noMacroDoc_sanitizeExpr e]
  | .method a n b => by
    simp [sanitizeImplItem, noMacroDocImplItem, noMacroDoc_sanitizeBlock b]
  | .verbatim _ => rfl

end

mutual

/-- Visiting a declaration twice equals visiting it once. -/
theorem sanitizeItem_idem : ∀ i : Item, sanitizeItem (sanitizeItem i) = sanitizeItem i
  | .mod_ a n (some items) => by
    simp [sanitizeItem, sanitizeItems_idem items]
  | .mod_ _ _ none => rfl
  | .fn_ a n b => by simp [sanitizeItem, sanitizeBlock_idem b]
  | .const_ a n ty e => by simp [sanitizeItem, sanitizeExpr_idem e]
  | .trait_ a n tis => by simp [sanitizeItem, sanitizeTraitItems_idem tis]
  | .impl_ a iis => by simp [sanitizeItem, sanitizeImplItems_idem iis]
  | .externCrate _ _ => rfl
  | .use_ => rfl
  | .static_ _ => rfl
  | .foreignMod _ _ => rfl
  | .type_ _ _ _ => rfl
  | .existential _ => rfl
  | .struct_ _ => rfl
  | .enum_ _ => rfl
  | .union_ _ => rfl
  | .traitAlias _ => rfl
  | .macro_ _ => rfl
  | .macro2 _ => rfl
  | .verbatim _ => rfl

/-- Running the fused retain-and-visit pass twice equals running it
once: the first pass leaves no macro definition to remove. -/
theorem sanitizeItems_idem : ∀ l : List Item, sanitizeItems (sanitizeItems l) = sanitizeItems l
  | [] => rfl
  | i :: rest => by
    by_cases h : isMacroItem i
    · simp [sanitizeItems, h, sanitizeItems_idem rest]
    · simp [sanitizeItems, h, isMacroItem_sanitizeItem, sanitizeItem_idem i,
        sanitizeItems_idem rest]

/-- Visiting a block twice equals visiting it once. -/
theorem sanitizeBlock_idem : ∀ b : Block, sanitizeBlock (sanitizeBlock b) = sanitizeBlock b
  | .mk stmts => by simp [sanitizeBlock, sanitizeStmts_idem stmts]

/-- Running the fused statement pass twice equals running it once. -/
theorem sanitizeStmts_idem : ∀ l : List Stmt, sanitizeStmts (sanitizeStmts l) = sanitizeStmts l
  | [] => rfl
  | s :: rest => by
    by_cases h : isMacroItemStmt s
    · simp [sanitizeStmts, h, sanitizeStmts_idem rest]
    · simp [sanitizeStmts, h, isMacroItemStmt_sanitizeStmt, sanitizeStmt_idem s,
        sanitizeStmts_idem rest]

/-- Visiting a statement twice equals visiting it once. -/
theorem sanitizeStmt_idem : ∀ s : Stmt, sanitizeStmt (sanitizeStmt s) = sanitizeStmt s
  | .local_ a init => by
    cases init with
    | none => simp [sanitizeStmt, removeDocAttributes_idem a]
    | some e => simp [sanitizeStmt, removeDocAttributes_idem a, sanitizeExpr_idem e]
  | .expr e semi => by
    simp [sanitizeStmt, sanitizeStmtExpr_idem e]
  | .item i => by simp [sanitizeStmt, sanitizeItem_idem i]
  | .macroStmt a => by simp [sanitizeStmt, removeDocAttributes_idem a]

/-- The statement-level expression pass is idempotent. -/
theorem sanitizeStmtExpr_idem :
    ∀ e : Expr, sanitizeStmtExpr (sanitizeStmtExpr e) = sanitizeStmtExpr e
  | .lit a v => by simp [sanitizeStmtExpr, removeDocAttributes_idem a]
  | .path a segs => by simp [sanitizeStmtExpr, removeDocAttributes_idem a]
  | .binary a op l r => by
    simp [sanitizeStmtExpr, removeDocAttributes_idem a, sanitizeExpr_idem l,
      sanitizeExpr_idem r]
  | .paren a e => by
    simp [sanitizeStmtExpr, removeDocAttributes_idem a, sanitizeExpr_idem e]
  | .block a b => by
    simp [sanitizeStmtExpr, removeDocAttributes_idem a, sanitizeBlock_idem b]
  | .macroExpr a => by simp [sanitizeStmtExpr, removeDocAttributes_idem a]
  | .verbatim _ => rfl

/-- Visiting an expression twice equals visiting it once. -/
theorem sanitizeExpr_idem : ∀ e : Expr, sanitizeExpr (sanitizeExpr e) = sanitizeExpr e
  | .lit _ _ => rfl
  | .path _ _ => rfl
  | .binary a op l r => by
    simp [sanitizeExpr, sanitizeExpr_idem l, sanitizeExpr_idem r]
  | .paren a e => by simp [sanitizeExpr, sanitizeExpr_idem e]
  | .block a b => by simp [sanitizeExpr, sanitizeBlock_idem b]
  | .macroExpr _ => rfl
  | .verbatim _ => rfl

/-- Visiting a trait-member list twice equals visiting it once. -/
theorem sanitizeTraitItems_idem :
    ∀ l : List TraitItem, sanitizeTraitItems (sanitizeTraitItems l) = sanitizeTraitItems l
  | [] => rfl
  | ti :: rest => by
    simp [sanitizeTraitItems, sanitizeTraitItem_idem ti, sanitizeTraitItems_idem rest]

/-- Visiting a trait member twice equals visiting it once. -/
theorem sanitizeTraitItem_idem :
    ∀ ti : TraitItem, sanitizeTraitItem (sanitizeTraitItem ti) = sanitizeTraitItem ti
  | .const_ a n ty d => by
    cases d with
    | none => rfl
    | some e => simp [sanitizeTraitItem, sanitizeExpr_idem e]
  | .method a n d => by
    cases d with
    | none => rfl
    | some b => simp [sanitizeTraitItem, sanitizeBlock_idem b]
  | .type_ _ _ _ => rfl
  | .macroTI => rfl
  | .verbatim _ => rfl

/-- Visiting an impl-member list twice equals visiting it once. -/
theorem sanitizeImplItems_idem :
    ∀ l : List ImplItem, sanitizeImplItems (sanitizeImplItems l) = sanitizeImplItems l
  | [] => rfl
  | ii :: rest => by
    simp [sanitizeImplItems, sanitizeImplItem_idem ii, sanitizeImplItems_idem rest]

/-- Visiting an impl member twice equals visiting it once. -/
theorem sanitizeImplItem_idem :
    ∀ ii : ImplItem, sanitizeImplItem (sanitizeImplItem ii) = sanitizeImplItem ii
  | .const_ a n ty e => by simp [sanitizeImplItem, sanitizeExpr_idem e]
  | .method a n b => by simp [sanitizeImplItem, sanitizeBlock_idem b]
  | .verbatim _ => rfl

end

/-! ## Lemmas about the resilient renderer -/

/-- Characterizes `fold_item` in closed form: try the minimal wrapper; on failure fold
the immediate children and retry exactly once; on a second failure
substitute the ellipsis placeholder. -/
theorem foldItem_eq (R : Renderer) (i : Item) :
    foldItem R i =
      if R.canRender (wrapItem i) then i
      else if R.canRender (wrapItem (foldItemChildren R i)) then foldItemChildren R i
      else ellipsisItem := by
  cases i with
  | mod_ a n content => cases content <;> rfl
  | _ => rfl

/-- Characterizes `fold_stmt` in closed form. -/
theorem foldStmt_eq (R : Renderer) (s : Stmt) :
    foldStmt R s =
      if R.canRender (wrapStmt s) then s
      else if R.canRender (wrapStmt (foldStmtChildren R s)) then foldStmtChildren R s
      else ellipsisStmt := by
  cases s with
  | local_ a init => cases init <;> rfl
  | _ => rfl

/-- Characterizes `fold_expr` in closed form. -/
theorem foldExpr_eq (R : Renderer) (e : Expr) :
    foldExpr R e =
      if R.canRender (wrapExpr e) then e
      else if R.canRender (wrapExpr (foldExprChildren R e)) then foldExprChildren R e
      else ellipsisExpr := by
  cases e <;> rfl

/-- Characterizes `fold_foreign_item` in closed form (its children fold is the
identity on the embedded foreign items). -/
theorem foldForeignItem_eq (R : Renderer) (fi : ForeignItem) :
    foldForeignItem R fi =
      if R.canRender (wrapForeignItem fi) then fi
      else ellipsisForeignItem := by
  cases fi <;> · simp only [foldForeignItem]; split <;> simp_all

/-- The file-level fold maps the overridden `fold_item` over the
declaration list. -/
theorem foldItems_eq_map (R : Renderer) (l : List Item) :
    foldItems R l = l.map (foldItem R) := by
  induction l with
  | nil => rfl
  | cons i rest ih => simp [foldItems, ih]

/-- Under the guarantee that the placeholder renders, every item
produced by `fold_item` renders in its minimal wrapper. -/
theorem foldItem_renders (R : Renderer) (i : Item)
    (hplaceholder : R.canRender (wrapItem ellipsisItem) = true) :
    R.canRender (wrapItem (foldItem R i)) = true := by
  rw [foldItem_eq]
  by_cases h1 : R.canRender (wrapItem i)
  · simp [h1]
  · by_cases h2 : R.canRender (wrapItem (foldItemChildren R i))
    · simp [h1, h2]
    · simp [h1, h2, hplaceholder]

/-! ## Checkers and lemmas for `skip_auto_derived` -/

mutual

/-- Checker: no marked implementation block in the declaration list, at
any nesting depth. -/
def noMarkedItems (marker : String) : List Item → Bool
  | [] => true
  | i :: rest =>
    !isMarkedImpl marker i && noMarkedItem marker i && noMarkedItems marker rest

/-- Checker: no marked implementation block nested inside this
declaration. -/
def noMarkedItem (marker : String) : Item → Bool
  | .mod_ _ _ (some items) => noMarkedItems marker items
  | .fn_ _ _ b => noMarkedBlock marker b
  | .const_ _ _ _ e => noMarkedExpr marker e
  | .trait_ _ _ tis => noMarkedTraitItems marker tis
  | .impl_ _ iis => noMarkedImplItems marker iis
  | _ => true

/-- Checker for a block. -/
def noMarkedBlock (marker : String) : Block → Bool
  | .mk stmts => noMarkedStmts marker stmts

/-- Checker for a statement list. -/
def noMarkedStmts (marker : String) : List Stmt → Bool
  | [] => true
  | s :: rest =>
    !isMarkedImplStmt marker s && noMarkedStmt marker s && noMarkedStmts marker rest

/-- Checker for one statement. -/
def noMarkedStmt (marker : String) : Stmt → Bool
  | .local_ _ init =>
    (match init with
     | none => true
     | some e => noMarkedExpr marker e)
  | .item i => noMarkedItem marker i
  | .expr e _ => noMarkedExpr marker e
  | .macroStmt _ => true

/-- Checker for one expression. -/
def noMarkedExpr (marker : String) : Expr → Bool
  | .lit _ _ => true
  | .path _ _ => true
  | .binary _ _ l r => noMarkedExpr marker l && noMarkedExpr marker r
  | .paren _ e => noMarkedExpr marker e
  | .block _ b => noMarkedBlock marker b
  | .macroExpr _ => true
  | .verbatim _ => true

/-- Checker for a trait-member list. -/
def noMarkedTraitItems (marker : String) : List TraitItem → Bool
  | [] => true
  | ti :: rest => noMarkedTraitItem marker ti && noMarkedTraitItems marker rest

/-- Checker for one trait member. -/
def noMarkedTraitItem (marker : String) : TraitItem → Bool
  | .const_ _ _ _ d =>
    (match d with
     | none => true
     | some e => noMarkedExpr marker e)
  | .method _ _ d =>
    (match d with
     | none => true
     | some b => noMarkedBlock marker b)
  | .type_ _ _ _ => true
  | .macroTI => true
  | .verbatim _ => true

/-- Checker for an impl-member list. -/
def noMarkedImplItems (marker : String) : List ImplItem → Bool
  | [] => true
  | ii :: rest => noMarkedImplItem marker ii && noMarkedImplItems marker rest

/-- Checker for one impl member. -/
def noMarkedImplItem (marker : String) : ImplItem → Bool
  | .const_ _ _ _ e => noMarkedExpr marker e
  | .method _ _ b => noMarkedBlock marker b
  | .verbatim _ => true

end

/-- The no-marked-impl invariant on a whole compilation unit. -/
def noMarkedFile (marker : String) (f : File) : Bool :=
  noMarkedItems marker f.items

/-- The walk never changes whether a declaration is a marked
implementation block (it preserves the attribute list). -/
theorem isMarkedImpl_skipAutoDerivedItem (marker : String) (i : Item) :
    isMarkedImpl marker (skipAutoDerivedItem marker i) = isMarkedImpl marker i := by
  cases i with
  | mod_ a n content => cases content <;> rfl
  | _ => rfl

/-- Marked-impl statement test in terms of the item test. -/
theorem isMarkedImplStmt_item (marker : String) (i : Item) :
    isMarkedImplStmt marker (.item i) = isMarkedImpl marker i := rfl

/-- The walk never changes whether a statement is a marked
implementation block. -/
theorem isMarkedImplStmt_skipAutoDerivedStmt (marker : String) (s : Stmt) :
    isMarkedImplStmt marker (skipAutoDerivedStmt marker s) = isMarkedImplStmt marker s := by
  cases s with
  | local_ a init => cases init <;> rfl
  | item i =>
    simp [skipAutoDerivedStmt, isMarkedImplStmt_item, isMarkedImpl_skipAutoDerivedItem]
  | _ => rfl

/-- The list walk is the removal of the marked implementation blocks
followed by the recursive walk of the survivors, which keeps every
other declaration in its position. -/
theorem skipAutoDerivedItems_eq_filter_map (marker : String) (l : List Item) :
    skipAutoDerivedItems marker l =
      (l.filter (fun i => !isMarkedImpl marker i)).map (skipAutoDerivedItem marker) := by
  induction l with
  | nil => rfl
  | cons i rest ih =>
    by_cases h : isMarkedImpl marker i <;>
      simp [skipAutoDerivedItems, List.filter, h, ih]

mutual

/-- After the walk, no marked implementation block remains in the list,
at any depth. -/
theorem noMarked_skipItems (marker : String) :
    ∀ l : List Item, noMarkedItems marker (skipAutoDerivedItems marker l) = true
  | [] => rfl
  | i :: rest => by
    by_cases h : isMarkedImpl marker i
    · simp [skipAutoDerivedItems, h, noMarked_skipItems marker rest]
    · simp [skipAutoDerivedItems, h, noMarkedItems, isMarkedImpl_skipAutoDerivedItem,
        noMarked_skipItem marker i, noMarked_skipItems marker rest]

/-- After the walk, no marked implementation block remains nested in the
declaration. -/
theorem noMarked_skipItem (marker : String) :
    ∀ i : Item, noMarkedItem marker (skipAutoDerivedItem marker i) = true
  | .mod_ a n (some items) => by
    simp [skipAutoDerivedItem, noMarkedItem, noMarked_skipItems marker items]
  | .mod_ _ _ none => rfl
  | .fn_ a n b => by
    simp [skipAutoDerivedItem, noMarkedItem, noMarked_skipBlock marker b]
  | .const_ a n ty e => by
    simp [skipAutoDerivedItem, noMarkedItem, noMarked_skipExpr marker e]
  | .trait_ a n tis => by
    simp [skipAutoDerivedItem, noMarkedItem, noMarked_skipTraitItems marker tis]
  | .impl_ a iis => by
    simp [skipAutoDerivedItem, noMarkedItem, noMarked_skipImplItems marker iis]
  | .externCrate _ _ => rfl
  | .use_ => rfl
  | .static_ _ => rfl
  | .foreignMod _ _ => rfl
  | .type_ _ _ _ => rfl
  | .existential _ => rfl
  | .struct_ _ => rfl
  | .enum_ _ => rfl
  | .union_ _ => rfl
  | .traitAlias _ => rfl
  | .macro_ _ => rfl
  | .macro2 _ => rfl
  | .verbatim _ => rfl

/-- After the walk, a block is free of marked implementation blocks. -/
theorem noMarked_skipBlock (marker : String) :
    ∀ b : Block, noMarkedBlock marker (skipAutoDerivedBlock marker b) = true
  | .mk stmts => by
    simp [skipAutoDerivedBlock, noMarkedBlock, noMarked_skipStmts marker stmts]

/-- After the walk, a statement list is free of marked implementation
blocks. -/
theorem noMarked_skipStmts (marker : String) :
    ∀ l : List Stmt, noMarkedStmts marker (skipAutoDerivedStmts marker l) = true
  | [] => rfl
  | s :: rest => by
    by_cases h : isMarkedImplStmt marker s
    · simp [skipAutoDerivedStmts, h, noMarked_skipStmts marker rest]
    · simp [skipAutoDerivedStmts, h, noMarkedStmts,
        isMarkedImplStmt_skipAutoDerivedStmt, noMarked_skipStmt marker s,
        noMarked_skipStmts marker rest]

/-- After the walk, a statement is free of marked implementation
blocks. -/
theorem noMarked_skipStmt (marker : String) :
    ∀ s : Stmt, noMarkedStmt marker (skipAutoDerivedStmt marker s) = true
  | .local_ a init => by
    cases init with
    | none => rfl
    | some e => simp [skipAutoDerivedStmt, noMarkedStmt, noMarked_skipExpr marker e]
  | .item i => by
    simp [skipAutoDerivedStmt, noMarkedStmt, noMarked_skipItem marker i]
  | .expr e semi => by
    simp [skipAutoDerivedStmt, noMarkedStmt, noMarked_skipExpr marker e]
  | .macroStmt _ => rfl

/-- After the walk, an expression is free of marked implementation
blocks. -/
theorem noMarked_skipExpr (marker : String) :
    ∀ e : Expr, noMarkedExpr marker (skipAutoDerivedExpr marker e) = true
  | .lit _ _ => rfl
  | .path _ _ => rfl
  | .binary a op l r => by
    simp [skipAutoDerivedExpr, noMarkedExpr, noMarked_skipExpr marker l,
      noMarked_skipExpr marker r]
  | .paren a e => by
    simp [skipAutoDerivedExpr, noMarkedExpr, noMarked_skipExpr marker e]
  | .block a b => by
    simp [skipAutoDerivedExpr, noMarkedExpr, noMarked_skipBlock marker b]
  | .macroExpr _ => rfl
  | .verbatim _ => rfl

/-- After the walk, a trait-member list is free of marked implementation
blocks. -/
theorem noMarked_skipTraitItems (marker : String) :
    ∀ l : List TraitItem, noMarkedTraitItems marker (skipAutoDerivedTraitItems marker l) = true
  | [] => rfl
  | ti :: rest => by
    simp [skipAutoDerivedTraitItems, noMarkedTraitItems,
      noMarked_skipTraitItem marker ti, noMarked_skipTraitItems marker rest]

/-- After the walk, a trait member is free of marked implementation
blocks. -/
theorem noMarked_skipTraitItem (marker : String) :
    ∀ ti : TraitItem, noMarkedTraitItem marker (skipAutoDerivedTraitItem marker ti) = true
  | .const_ a n ty d => by
    cases d with
    | none => rfl
    | some e => simp [skipAutoDerivedTraitItem, noMarkedTraitItem, noMarked_skipExpr marker e]
  | .method a n d => by
    cases d with
    | none => rfl
    | some b => simp [skipAutoDerivedTraitItem, noMarkedTraitItem, noMarked_skipBlock marker b]
  | .type_ _ _ _ => rfl
  | .macroTI => rfl
  | .verbatim _ => rfl

/-- After the walk, an impl-member list is free of marked implementation
blocks. -/
theorem noMarked_skipImplItems (marker : String) :
    ∀ l : List ImplItem, noMarkedImplItems marker (skipAutoDerivedImplItems marker l) = true
  | [] => rfl
  | ii :: rest => by
    simp [skipAutoDerivedImplItems, noMarkedImplItems,
      noMarked_skipImplItem marker ii, noMarked_skipImplItems marker rest]

/-- After the walk, an impl member is free of marked implementation
blocks. -/
theorem noMarked_skipImplItem (marker : String) :
    ∀ ii : ImplItem, noMarkedImplItem marker (skipAutoDerivedImplItem marker ii) = true
  | .const_ a n ty e => by
    simp [skipAutoDerivedImplItem, noMarkedImplItem, noMarked_skipExpr marker e]
  | .method a n b => by
    simp [skipAutoDerivedImplItem, noMarkedImplItem, noMarked_skipBlock marker b]
  | .verbatim _ => rfl

end

mutual

/-- A declaration list without marked implementation blocks is left
untouched by the walk, every declaration in its position. -/
theorem skipItems_id (marker : String) :
    ∀ l : List Item, noMarkedItems marker l = true → skipAutoDerivedItems marker l = l
  | [], _ => rfl
  | i :: rest, h => by
    simp only [noMarkedItems, Bool.and_eq_true, Bool.not_eq_true'] at h
    simp [skipAutoDerivedItems, h.1.1, skipItem_id marker i h.1.2,
      skipItems_id marker rest h.2]

/-- A declaration without nested marked implementation blocks is left
untouched. -/
theorem skipItem_id (marker : String) :
    ∀ i : Item, noMarkedItem marker i = true → skipAutoDerivedItem marker i = i
  | .mod_ a n (some items), h => by
    simp only [noMarkedItem] at h
    simp [skipAutoDerivedItem, skipItems_id marker items h]
  | .mod_ _ _ none, _ => rfl
  | .fn_ a n b, h => by
    simp only [noMarkedItem] at h
    simp [skipAutoDerivedItem, skipBlock_id marker b h]
  | .const_ a n ty e, h => by
    simp only [noMarkedItem] at h
    simp [skipAutoDerivedItem, skipExpr_id marker e h]
  | .trait_ a n tis, h => by
    simp only [noMarkedItem] at h
    simp [skipAutoDerivedItem, skipTraitItems_id marker tis h]
  | .impl_ a iis, h => by
    simp only [noMarkedItem] at h
    simp [skipAutoDerivedItem, skipImplItems_id marker iis h]
  | .externCrate _ _, _ => rfl
  | .use_, _ => rfl
  | .static_ _, _ => rfl
  | .foreignMod _ _, _ => rfl
  | .type_ _ _ _, _ => rfl
  | .existential _, _ => rfl
  | .struct_ _, _ => rfl
  | .enum_ _, _ => rfl
  | .union_ _, _ => rfl
  | .traitAlias _, _ => rfl
  | .macro_ _, _ => rfl
  | .macro2 _, _ => rfl
  | .verbatim _, _ => rfl

/-- A clean block is left untouched. -/
theorem skipBlock_id (marker : String) :
    ∀ b : Block, noMarkedBlock marker b = true → skipAutoDerivedBlock marker b = b
  | .mk stmts, h => by
    simp only [noMarkedBlock] at h
    simp [skipAutoDerivedBlock, skipStmts_id marker stmts h]

/-- A clean statement list is left untouched. -/
theorem skipStmts_id (marker : String) :
    ∀ l : List Stmt, noMarkedStmts marker l = true → skipAutoDerivedStmts marker l = l
  | [], _ => rfl
  | s :: rest, h => by
    simp only [noMarkedStmts, Bool.and_eq_true, Bool.not_eq_true'] at h
    simp [skipAutoDerivedStmts, h.1.1, skipStmt_id marker s h.1.2,
      skipStmts_id marker rest h.2]

/-- A clean statement is left untouched. -/
theorem skipStmt_id (marker : String) :
    ∀ s : Stmt, noMarkedStmt marker s = true → skipAutoDerivedStmt marker s = s
  | .local_ a init, h => by
    cases init with
    | none => rfl
    | some e =>
      simp only [noMarkedStmt] at h
      simp [skipAutoDerivedStmt, skipExpr_id marker e h]
  | .item i, h => by
    simp only [noMarkedStmt] at h
    simp [skipAutoDerivedStmt, skipItem_id marker i h]
  | .expr e semi, h => by
    simp only [noMarkedStmt] at h
    simp [skipAutoDerivedStmt, skipExpr_id marker e h]
  | .macroStmt _, _ => rfl

/-- A clean expression is left untouched. -/
theorem skipExpr_id (marker : String) :
    ∀ e : Expr, noMarkedExpr marker e = true → skipAutoDerivedExpr marker e = e
  | .lit _ _, _ => rfl
  | .path _ _, _ => rfl
  | .binary a op l r, h => by
    simp only [noMarkedExpr, Bool.and_eq_true] at h
    simp [skipAutoDerivedExpr, skipExpr_id marker l h.1, skipExpr_id marker r h.2]
  | .paren a e, h => by
    simp only [noMarkedExpr] at h
    simp [skipAutoDerivedExpr, skipExpr_id marker e h]
  | .block a b, h => by
    simp only [noMarkedExpr] at h
    simp [skipAutoDerivedExpr, skipBlock_id marker b h]
  | .macroExpr _, _ => rfl
  | .verbatim _, _ => rfl

/-- A clean trait-member list is left untouched. -/
theorem skipTraitItems_id (marker : String) :
    ∀ l : List TraitItem, noMarkedTraitItems marker l = true →
      skipAutoDerivedTraitItems marker l = l
  | [], _ => rfl
  | ti :: rest, h => by
    simp only [noMarkedTraitItems, Bool.and_eq_true] at h
    simp [skipAutoDerivedTraitItems, skipTraitItem_id marker ti h.1,
      skipTraitItems_id marker rest h.2]

/-- A clean trait member is left untouched. -/
theorem skipTraitItem_id (marker : String) :
    ∀ ti : TraitItem, noMarkedTraitItem marker ti = true →
      skipAutoDerivedTraitItem marker ti = ti
  | .const_ a n ty d, h => by
    cases d with
    | none => rfl
    | some e =>
      simp only [noMarkedTraitItem] at h
      simp [skipAutoDerivedTraitItem, skipExpr_id marker e h]
  | .method a n d, h => by
    cases d with
    | none => rfl
    | some b =>
      simp only [noMarkedTraitItem] at h
      simp [skipAutoDerivedTraitItem, skipBlock_id marker b h]
  | .type_ _ _ _, _ => rfl
  | .macroTI, _ => rfl
  | .verbatim _, _ => rfl

/-- A clean impl-member list is left untouched. -/
theorem skipImplItems_id (marker : String) :
    ∀ l : List ImplItem, noMarkedImplItems marker l = true →
      skipAutoDerivedImplItems marker l = l
  | [], _ => rfl
  | ii :: rest, h => by
    simp only [noMarkedImplItems, Bool.and_eq_true] at h
    simp [skipAutoDerivedImplItems, skipImplItem_id marker ii h.1,
      skipImplItems_id marker rest h.2]

/-- A clean impl member is left untouched. -/
theorem skipImplItem_id (marker : String) :
    ∀ ii : ImplItem, noMarkedImplItem marker ii = true →
      skipAutoDerivedImplItem marker ii = ii
  | .const_ a n ty e, h => by
    simp only [noMarkedImplItem] at h
    simp [skipAutoDerivedImplItem, skipExpr_id marker e h]
  | .method a n b, h => by
    simp only [noMarkedImplItem] at h
    simp [skipAutoDerivedImplItem, skipBlock_id marker b h]
  | .verbatim _, _ => rfl

end

/-- The default `fold::fold_trait_item` dispatch of the children of one
trait member (standalone form of the inline `match` in `foldTraitItem`). -/
def foldTraitItemChildren (R : Renderer) : TraitItem → TraitItem
  | .const_ a n ty d =>
    .const_ a n ty
      (match d with
       | none => none
       | some e => some (foldExpr R e))
  | .method a n d =>
    .method a n
      (match d with
       | none => none
       | some b => some (foldBlock R b))
  | other => other

/-- The default `fold::fold_impl_item` dispatch of the children of one
impl member (standalone form of the inline `match` in `foldImplItem`). -/
def foldImplItemChildren (R : Renderer) : ImplItem → ImplItem
  | .const_ a n ty e => .const_ a n ty (foldExpr R e)
  | .method a n b => .method a n (foldBlock R b)
  | other => other

/-- Characterizes `fold_trait_item` in closed form. -/
theorem foldTraitItem_eq (R : Renderer) (ti : TraitItem) :
    foldTraitItem R ti =
      if R.canRender (wrapTraitItem ti) then ti
      else if R.canRender (wrapTraitItem (foldTraitItemChildren R ti)) then
        foldTraitItemChildren R ti
      else ellipsisTraitItem := by
  cases ti with
  | const_ a n ty d => cases d <;> rfl
  | method a n d => cases d <;> rfl
  | _ => rfl

/-- Characterizes `fold_impl_item` in closed form. -/
theorem foldImplItem_eq (R : Renderer) (ii : ImplItem) :
    foldImplItem R ii =
      if R.canRender (wrapImplItem ii) then ii
      else if R.canRender (wrapImplItem (foldImplItemChildren R ii)) then
        foldImplItemChildren R ii
      else ellipsisImplItem := by
  cases ii <;> rfl

/-! ## Witness fixtures -/

/-- A rendering primitive that succeeds on every unit. -/
def RendererAll : Renderer :=
  ⟨fun _ => true, fun _ => "rendered"⟩

/-- A rendering primitive that fails exactly on units containing a
macro-definition declaration at top level (compositional over items). -/
def RendererNonMacroItems : Renderer :=
  ⟨fun g => g.items.all (fun i => !isMacroItem i), fun _ => "w"⟩

/-- The empty compilation unit. -/
def emptyUnit : File :=
  ⟨none, [], []⟩

/-- A unit whose only declaration is a macro definition. -/
def macroOnlyUnit : File :=
  ⟨none, [], [.macro_ none]⟩

/-- A guarded computation that returns normally and leaves the hook
slot untouched. -/
def hookRunNormal : Nat → Nat × ThreadOutcome Nat :=
  fun h => (h, .value 0)

/-- A unit containing one module `inner` with two functions `f`, `g`. -/
def innerUnit : File :=
  ⟨none, [], [.mod_ [] "inner" (some [.fn_ [] "f" (.mk []), .fn_ [] "g" (.mk [])])]⟩

/-- The selector `inner`. -/
def innerSel : ItemFilter :=
  ⟨["inner"]⟩

/-- The selector `x`. -/
def selX : ItemFilter :=
  ⟨["x"]⟩

/-- A unit with a single implementation block carrying no marker
attribute. -/
def unmarkedImplUnit : File :=
  ⟨none, [], [.impl_ [⟨["allow"], .list⟩] []]⟩

/-! ## The claims -/

/-- C1: the resilient renderer first attempts a single whole-unit
render; on success that text is returned unchanged; only on failure does
it perform the per-node fold, in which each node is first tried in its
minimal wrapper, then (on failure) its immediate children are resolved
recursively and the wrapper is retried exactly once more, and a node
that still fails is replaced by the placeholder rendering as the fixed
ellipsis token. -/
theorem claim_C1_resilient_render (R : Renderer) (f : File) (i : Item) (s : Stmt)
    (e : Expr) (fi : ForeignItem) (ti : TraitItem) (ii : ImplItem)
    (hfast : R.canRender f = true) :
    unparseMaximal R f = some (R.render f) ∧
    (∀ g : File, R.canRender g = false →
      unparseMaximal R g =
        (if R.canRender (foldFile R g) then some (R.render (foldFile R g)) else none)) ∧
    foldItem R i =
      (if R.canRender (wrapItem i) then i
       else if R.canRender (wrapItem (foldItemChildren R i)) then foldItemChildren R i
       else ellipsisItem) ∧
    foldStmt R s =
      (if R.canRender (wrapStmt s) then s
       else if R.canRender (wrapStmt (foldStmtChildren R s)) then foldStmtChildren R s
       else ellipsisStmt) ∧
    foldExpr R e =
      (if R.canRender (wrapExpr e) then e
       else if R.canRender (wrapExpr (foldExprChildren R e)) then foldExprChildren R e
       else ellipsisExpr) ∧
    foldForeignItem R fi =
      (if R.canRender (wrapForeignItem fi) then fi else ellipsisForeignItem) ∧
    foldTraitItem R ti =
      (if R.canRender (wrapTraitItem ti) then ti
       else if R.canRender (wrapTraitItem (foldTraitItemChildren R ti)) then
         foldTraitItemChildren R ti
       else ellipsisTraitItem) ∧
    foldImplItem R ii =
      (if R.canRender (wrapImplItem ii) then ii
       else if R.canRender (wrapImplItem (foldImplItemChildren R ii)) then
         foldImplItemChildren R ii
       else ellipsisImplItem) := by
  refine ⟨by simp [unparseMaximal, hfast], fun g hg => by simp [unparseMaximal, hg, cloneFile],
    foldItem_eq R i, foldStmt_eq R s, foldExpr_eq R e, foldForeignItem_eq R fi,
    foldTraitItem_eq R ti, foldImplItem_eq R ii⟩

/-- Witness for C1: with an always-succeeding primitive, the whole-unit
fast path returns the primitive's text unchanged. -/
theorem claim_C1_witness :
    unparseMaximal RendererAll emptyUnit = some (RendererAll.render emptyUnit) :=
  (claim_C1_resilient_render RendererAll emptyUnit Item.use_ (Stmt.macroStmt [])
    (Expr.verbatim "") (ForeignItem.verbatim "") TraitItem.macroTI (ImplItem.verbatim "")
    rfl).1

/-- C2: with the spec's contract for the external primitive — success of
a unit render is compositional in the unit's declarations tested in
their minimal wrappers, and the ellipsis placeholder always renders —
rendering any unit returns some text (the fatal panic escape in the
final render of src/unparse.rs line 18 cannot happen), and the
whole-unit render of the redacted tree always succeeds. -/
theorem claim_C2_totality (R : Renderer) (f : File)
    (hcomp : ∀ g : File,
      R.canRender g = true ↔ ∀ i ∈ g.items, R.canRender (wrapItem i) = true)
    (hplaceholder : R.canRender (wrapItem ellipsisItem) = true) :
    (∃ text, unparseMaximal R f = some text) ∧
    R.canRender (foldFile R f) = true := by
  have hred : R.canRender (foldFile R f) = true := by
    rw [hcomp]
    intro i hi
    simp only [foldFile, foldItems_eq_map] at hi
    rcases List.mem_map.mp hi with ⟨j, hj, rfl⟩
    exact foldItem_renders R j hplaceholder
  refine ⟨?_, hred⟩
  by_cases hf : R.canRender f
  · exact ⟨R.render f, by simp [unparseMaximal, hf]⟩
  · exact ⟨R.render (foldFile R f), by simp [unparseMaximal, hf, cloneFile, hred]⟩

/-- Witness for C2: a compositional primitive that rejects macro
definitions, applied to a unit whose only declaration it cannot render,
so the fallback fold actually runs and substitutes the placeholder. -/
theorem claim_C2_witness :
    (∃ text, unparseMaximal RendererNonMacroItems macroOnlyUnit = some text) ∧
    RendererNonMacroItems.canRender (foldFile RendererNonMacroItems macroOnlyUnit) = true :=
  claim_C2_totality RendererNonMacroItems macroOnlyUnit
    (by
      intro g
      simp [RendererNonMacroItems, wrapItem, mkTestFile, List.all_eq_true])
    (by rfl)

/-- C3: after `sanitize`, no declaration list at any nesting depth (the
unit itself, any module, or any block of statements) contains a
macro-definition declaration, and no statement-level expression or
local-binding statement carries a documentation attribute. -/
theorem claim_C3_sanitize_invariant (f : File) :
    noMacroDocFile (sanitize f) = true := by
  simp [noMacroDocFile, sanitize, noMacroDoc_sanitizeItems]

/-- C4: the fault boundary installs the interception handler before the
attempt (the guarded computation observes the null hook installed),
restores the previously installed handler on every exit path, and on
restore validates that the handler taken back is exactly the installed
one; any other handler observed at restore time yields the fatal abort
instead of a result. -/
theorem claim_C4_fault_boundary {T : Type} (f : Nat → Nat × ThreadOutcome T)
    (nullHook installedHook : Nat) :
    (ignorePanic f nullHook installedHook).2 = installedHook ∧
    ((f nullHook).1 = nullHook →
      (ignorePanic f nullHook installedHook).1 = .result (f nullHook).2) ∧
    ((f nullHook).1 ≠ nullHook →
      (ignorePanic f nullHook installedHook).1 = .fatalHookRace) := by
  refine ⟨?_, fun h => by simp [ignorePanic, h], fun h => by simp [ignorePanic, h]⟩
  by_cases h : (f nullHook).1 = nullHook <;> simp [ignorePanic, h]

/-- Witness for C4: a well-behaved attempt leaves the hook untouched and
its outcome is returned. -/
theorem claim_C4_witness :
    (ignorePanic hookRunNormal 5 3).1 = .result (hookRunNormal 5).2 :=
  (claim_C4_fault_boundary hookRunNormal 5 3).2.1 rfl

/-- C5: after all path segments are consumed, if exactly one declaration
remains and it is a module with inline content, the unit's declaration
list becomes that module's members; otherwise the remaining list of 0,
1 or many declarations becomes the unit's content unchanged. -/
theorem claim_C5_selector_unwrap (f : File) (flt : ItemFilter) :
    (∀ a n nested,
      filterSegments (rootItems f) flt.segments = [Item.mod_ a n (some nested)] →
      (filterFile f flt).items = nested) ∧
    ((∀ a n nested,
        filterSegments (rootItems f) flt.segments ≠ [Item.mod_ a n (some nested)]) →
      (filterFile f flt).items = filterSegments (rootItems f) flt.segments) := by
  constructor
  · intro a n nested h
    simp [filterFile, h]
  · intro hne
    simp only [filterFile]

/-- Witness for C5: selecting `inner` in a unit whose module `inner`
holds functions `f` and `g` flattens the module's members into the
unit. -/
theorem claim_C5_witness :
    (filterFile innerUnit innerSel).items = [.fn_ [] "f" (.mk []), .fn_ [] "g" (.mk [])] :=
  (claim_C5_selector_unwrap innerUnit innerSel).1 []
    "inner" [.fn_ [] "f" (.mk []), .fn_ [] "g" (.mk [])] rfl

/-- C6: descending into a trait synthesizes a trait constant with a
default value into a standalone constant declaration, a trait method
with a default body into a standalone function declaration with that
body, and a trait associated type with a default into a standalone type
alias; members without a default (and trait-level macros and verbatim
members) contribute nothing, so selecting a defaultless trait method
yields no match. -/
theorem claim_C6_trait_defaulting (a b : List Attribute) (n m ty t : String)
    (tis : List TraitItem) (e : Expr) (blk : Block) :
    enterItem (.trait_ a n tis) = tis.filterMap traitItemToItem ∧
    traitItemToItem (.const_ b m ty (some e)) = some (.const_ b m ty e) ∧
    traitItemToItem (.method b m (some blk)) = some (.fn_ b m blk) ∧
    traitItemToItem (.type_ b m (some t)) = some (.type_ b m t) ∧
    traitItemToItem (.const_ b m ty none) = none ∧
    traitItemToItem (.method b m none) = none ∧
    traitItemToItem (.type_ b m none) = none ∧
    traitItemToItem .macroTI = none ∧
    traitItemToItem (.verbatim t) = none ∧
    filterStep [Item.trait_ a n [TraitItem.method b m none]] m = [] := by
  refine ⟨rfl, rfl, rfl, rfl, rfl, rfl, rfl, rfl, rfl, ?_⟩
  simp [filterStep, enterItem, traitItemToItem]

/-- C7: `sanitize` is idempotent — applying it twice produces the same
tree as applying it once. -/
theorem claim_C7_sanitize_idempotent (f : File) :
    sanitize (sanitize f) = sanitize f := by
  simp [sanitize, sanitizeItems_idem]

/-- C8: selector failures are surfaced — parsing the empty selector
string fails with an error rather than producing a selector, and a
selector that leaves no declarations makes the run stop with the
"no such item" report instead of rendering empty output. -/
theorem claim_C8_selector_failures :
    ItemFilter.fromStr "" = .error "`` is not an identifier" ∧
    ∀ (f : File) (flt : ItemFilter), (filterFile f flt).items = [] →
      applyItemFilter f (some flt) = .error flt := by
  refine ⟨rfl, fun f flt h => ?_⟩
  simp [applyItemFilter, h]

/-- Witness for C8: the selector `x` matches nothing in the empty unit
and the stage reports it instead of passing the empty tree on. -/
theorem claim_C8_witness :
    applyItemFilter emptyUnit (some selX) = .error selX :=
  claim_C8_selector_failures.2 emptyUnit selX rfl

/-- C9: `skip_auto_derived` removes, at every nesting depth, exactly the
implementation blocks carrying the bare marker attribute: afterwards no
marked implementation block remains anywhere; a unit with no marked
implementation block is left completely untouched; and each declaration
list becomes the removal of its marked members followed by the
recursive walk of the survivors, preserving their order and
positions. -/
theorem claim_C9_skip_auto_derived (marker : String) (f : File) :
    noMarkedFile marker (skipAutoDerived marker f) = true ∧
    (noMarkedFile marker f = true → skipAutoDerived marker f = f) ∧
    skipAutoDerivedItems marker f.items =
      (f.items.filter (fun i => !isMarkedImpl marker i)).map (skipAutoDerivedItem marker) := by
  refine ⟨?_, ?_, skipAutoDerivedItems_eq_filter_map marker f.items⟩
  · simp [noMarkedFile, skipAutoDerived, noMarked_skipItems]
  · intro h
    simp only [noMarkedFile] at h
    simp [skipAutoDerived, skipItems_id marker f.items h]

/-- Witness for C9: a unit whose single implementation block carries no
marker attribute is left untouched. -/
theorem claim_C9_witness :
    skipAutoDerived "automatically_derived" unmarkedImplUnit = unmarkedImplUnit :=
  (claim_C9_skip_auto_derived "automatically_derived" unmarkedImplUnit).2.1 rfl

/-- C10: the resilient renderer never mutates the caller's tree — it
receives the unit by shared reference and the fallback fold consumes a
clone, so the caller's tree after the call is the tree passed in,
whether or not the fallback ran. -/
theorem claim_C10_no_mutation (R : Renderer) (f : File) :
    cloneFile f = f ∧
    (unparseMaximalTracked R f).2 = f ∧
    (unparseMaximalTracked R f).1 = unparseMaximal R f :=
  ⟨rfl, rfl, rfl⟩
